import Mathlib

/-!
Verification of the core analytics logic of the Chelsea FC Digital Twin
Django application.

The development shallowly embeds the relevant Python functions from
`core/utils.py`, `core/models.py`, `core/performance_calculator.py`,
`core/comparison_engine.py`, `core/formation_engine.py` and
`core/signals.py` as Lean definitions and proves the specified
properties about them.

Modelling conventions:
* Python `float` arithmetic is modelled over `ℚ` (exact rational
  arithmetic); Python `round(x, 2)` (round-half-to-even on two decimal
  places) is modelled by `pyRound2`.
* Python dates/datetimes are modelled as integer day counts; `a - b`
  on dates yields the signed number of days, and `//` is floor
  division (`Int.fdiv`).
* Django ORM aggregation (`Sum`, `Count`) and queryset filtering
  resolve a string keyword against the model's column names; an
  unresolvable keyword raises `FieldError`. This is modelled by
  resolver functions that return `none` for names that are not
  columns of the model, making the aggregate or filter return
  `Except.error (.fieldError name)`.
-/

set_option autoImplicit false

namespace ChelseaFC

/-! ## Rounding: model of Python `round(x, 2)` (banker's rounding) -/

/-- Round a rational to the nearest integer, ties to even
(the rounding used by Python's built-in `round`). -/
def roundHalfEven (q : ℚ) : ℤ :=
  if q - ⌊q⌋ < 1/2 then ⌊q⌋
  else if 1/2 < q - ⌊q⌋ then ⌊q⌋ + 1
  else if ⌊q⌋ % 2 = 0 then ⌊q⌋ else ⌊q⌋ + 1

/-- Model of Python `round(x, 2)`: round to two decimal places,
ties to even. -/
def pyRound2 (q : ℚ) : ℚ := (roundHalfEven (q * 100) : ℚ) / 100

theorem roundHalfEven_nonneg {q : ℚ} (hq : 0 ≤ q) : 0 ≤ roundHalfEven q := by
  have hfl : (0 : ℤ) ≤ ⌊q⌋ := by
    have := Int.le_floor.mpr (by exact_mod_cast hq : ((0 : ℤ) : ℚ) ≤ q)
    simpa using this
  unfold roundHalfEven
  split
  · exact hfl
  · split
    · omega
    · split
      · exact hfl
      · omega

theorem roundHalfEven_intCast (n : ℤ) : roundHalfEven (n : ℚ) = n := by
  unfold roundHalfEven
  simp

theorem roundHalfEven_le {q : ℚ} {n : ℤ} (hq : q ≤ (n : ℚ)) :
    roundHalfEven q ≤ n := by
  have hfl : ⌊q⌋ ≤ n := by
    have : ⌊q⌋ ≤ ⌊(n : ℚ)⌋ := Int.floor_le_floor hq
    simpa using this
  unfold roundHalfEven
  split
  · exact hfl
  · rename_i h1
    push_neg at h1
    -- in the remaining branches the fractional part is at least 1/2,
    -- so q is not an integer and ⌊q⌋ < n
    have hlt : ⌊q⌋ < n := by
      rcases lt_or_eq_of_le hfl with h | h
      · exact h
      · exfalso
        have hq' : q ≤ (⌊q⌋ : ℚ) := by rw [h]; exact hq
        have : q - ⌊q⌋ ≤ 0 := by linarith
        linarith
    split
    · omega
    · split
      · exact hfl
      · omega

theorem roundHalfEven_abs_le (q : ℚ) :
    |(roundHalfEven q : ℚ) - q| ≤ 1/2 := by
  have hfl : (⌊q⌋ : ℚ) ≤ q := Int.floor_le q
  have hfl' : q < (⌊q⌋ : ℚ) + 1 := Int.lt_floor_add_one q
  unfold roundHalfEven
  split
  · rename_i h
    rw [abs_le]; constructor <;> linarith
  · rename_i h1
    push_neg at h1
    split
    · rename_i h
      rw [abs_le]; push_cast; constructor <;> linarith
    · rename_i h2
      push_neg at h2
      have heq : q - ⌊q⌋ = 1/2 := le_antisymm h2 h1
      split
      · rw [abs_le]; constructor <;> linarith
      · rw [abs_le]; push_cast; constructor <;> linarith

theorem pyRound2_nonneg {q : ℚ} (hq : 0 ≤ q) : 0 ≤ pyRound2 q := by
  unfold pyRound2
  have h : 0 ≤ roundHalfEven (q * 100) :=
    roundHalfEven_nonneg (by positivity)
  positivity

theorem pyRound2_le_100 {q : ℚ} (hq : q ≤ 100) : pyRound2 q ≤ 100 := by
  unfold pyRound2
  have h : roundHalfEven (q * 100) ≤ (10000 : ℤ) :=
    roundHalfEven_le (by push_cast; linarith)
  have h' : (roundHalfEven (q * 100) : ℚ) ≤ 10000 := by exact_mod_cast h
  linarith

theorem pyRound2_abs_le (q : ℚ) : |pyRound2 q - q| ≤ 1/200 := by
  unfold pyRound2
  have h := roundHalfEven_abs_le (q * 100)
  rw [abs_le] at h ⊢
  constructor <;> [linarith [h.1]; linarith [h.2]]

theorem pyRound2_mul_100_isInt (q : ℚ) : ∃ z : ℤ, pyRound2 q * 100 = (z : ℚ) := by
  refine ⟨roundHalfEven (q * 100), ?_⟩
  unfold pyRound2
  field_simp

/-! ## `core/utils.py` arithmetic helpers -/

/-- Embedding of `utils.calculate_pass_accuracy`:
`0` when `passes_attempted == 0`, otherwise
`round((passes_completed / passes_attempted) * 100, 2)`. -/
def calculate_pass_accuracy (passes_completed passes_attempted : ℕ) : ℚ :=
  if passes_attempted = 0 then 0
  else pyRound2 (((passes_completed : ℚ) / (passes_attempted : ℚ)) * 100)

/-- Embedding of `utils.calculate_win_rate`:
`0` when `total_matches == 0`, otherwise
`round((wins / total_matches) * 100, 2)`. -/
def calculate_win_rate (wins total_matches : ℕ) : ℚ :=
  if total_matches = 0 then 0
  else pyRound2 (((wins : ℚ) / (total_matches : ℚ)) * 100)

/-- Embedding of `utils.calculate_performance_grade`:
the threshold table from `core/utils.py` lines 69-89. -/
def calculate_performance_grade (rating : ℚ) : String :=
  if rating ≥ 9 then "A+"
  else if rating ≥ 8.5 then "A"
  else if rating ≥ 8 then "A-"
  else if rating ≥ 7.5 then "B+"
  else if rating ≥ 7 then "B"
  else if rating ≥ 6.5 then "B-"
  else if rating ≥ 6 then "C+"
  else if rating ≥ 5.5 then "C"
  else if rating ≥ 5 then "C-"
  else "D"

/-- Embedding of `PerformanceCalculator._assign_performance_grade`:
the threshold table from `core/performance_calculator.py` lines 367-387. -/
def assign_performance_grade (rating : ℚ) : String :=
  if rating ≥ 9 then "A+"
  else if rating ≥ 8.5 then "A"
  else if rating ≥ 8 then "A-"
  else if rating ≥ 7.5 then "B+"
  else if rating ≥ 7 then "B"
  else if rating ≥ 6.5 then "B-"
  else if rating ≥ 6 then "C+"
  else if rating ≥ 5.5 then "C"
  else if rating ≥ 5 then "C-"
  else "D"

/-! ## `core/utils.py` dates and `Player.age` -/

/-- Embedding of `utils.calculate_age`:
`(today - birth_date).days // 365` with dates as integer day counts
and `//` Python floor division. -/
def calculate_age (today birth_date : ℤ) : ℤ :=
  Int.fdiv (today - birth_date) 365

/-- A `Player` row, restricted to the columns read by the embedded
functions (`core/models.py` lines 8-65). -/
structure Player where
  id : ℕ
  first_name : String := ""
  last_name : String := ""
  position : String := "CM"
  date_of_birth : ℤ := 0
deriving Repr, DecidableEq

/-- Embedding of the computed property `Player.full_name`. -/
def Player.full_name (p : Player) : String :=
  p.first_name ++ " " ++ p.last_name

/-- Embedding of the computed property `Player.age`:
`(timezone.now().date() - self.date_of_birth).days // 365`. -/
def Player.age (p : Player) (today : ℤ) : ℤ :=
  Int.fdiv (today - p.date_of_birth) 365

/-! ## `Match` and its computed `result` property -/

/-- A `Match` row, restricted to the columns read by the embedded
functions (`core/models.py` lines 82-139).  Defaults follow the model
field defaults. -/
structure MatchRec where
  status : String := "SCHEDULED"
  chelsea_score : ℕ := 0
  opponent_score : ℕ := 0
  scheduled_datetime : ℤ := 0
deriving Repr, DecidableEq

/-- Embedding of the computed property `Match.result`
(`core/models.py` lines 131-139). -/
def MatchRec.result (m : MatchRec) : String :=
  if ¬ (m.status = "FULL_TIME" ∨ m.status = "COMPLETED") then "TBD"
  else if m.chelsea_score > m.opponent_score then "WIN"
  else if m.chelsea_score < m.opponent_score then "LOSS"
  else "DRAW"

/-! ## `core/formation_engine.py`: formation validation

`FormationEngine.__init__` reads `settings.FORMATION_CONFIG`
(`config/base.py` lines 162-171); its entries are embedded as the
constants below.  A `player_positions` entry is a dict with keys
`position`, `x_coordinate`, `y_coordinate` (the coordinates default to
`0` via `.get`), embedded as `PlayerPosition`.  The mutable
`validation_result` dict is embedded as `ValidationResult`; the Python
keys `is_valid` / `errors` / `warnings` are the fields
`isValid` / `errors` / `warnings`. -/

/-- `FORMATION_CONFIG['VALID_FORMATIONS']`. -/
def validFormationNames : List String :=
  ["4-4-2", "4-3-3", "3-5-2", "5-3-2", "4-2-3-1", "3-4-3"]

/-- `FORMATION_CONFIG['POSITIONS']`. -/
def recognisedPositions : List String :=
  ["GK", "CB", "LB", "RB", "CDM", "CM", "CAM", "LM", "RM", "LW", "RW", "ST"]

/-- `FORMATION_CONFIG['MAX_PLAYERS']`. -/
def maxPlayers : ℕ := 11

structure PlayerPosition where
  position : String
  x_coordinate : ℚ := 0
  y_coordinate : ℚ := 0
deriving Repr, DecidableEq

structure ValidationResult where
  isValid : Bool
  errors : List String
  warnings : List String
deriving Repr, DecidableEq

/-- The source pattern `validation_result['is_valid'] = False;`
`validation_result['errors'].append(msg)`. -/
def ValidationResult.addError (r : ValidationResult) (msg : String) : ValidationResult :=
  { r with isValid := false, errors := r.errors ++ [msg] }

/-- The source pattern `validation_result['warnings'].append(msg)`. -/
def ValidationResult.addWarning (r : ValidationResult) (msg : String) : ValidationResult :=
  { r with warnings := r.warnings ++ [msg] }

/-- The per-position loop of `validate_formation`
(`core/formation_engine.py` lines 33-40): one error per position that
is not in `FORMATION_CONFIG['POSITIONS']`. -/
def invalidPositionErrors (pps : List PlayerPosition) (r : ValidationResult) : ValidationResult :=
  pps.foldl (fun acc pp =>
    if pp.position ∉ recognisedPositions then
      acc.addError ("Invalid position: " ++ pp.position)
    else acc) r

/-- The `formation_structures` table of
`FormationEngine._validate_formation_structure` as
(defenders, midfielders, forwards). -/
def formationStructures (name : String) : Option (ℕ × ℕ × ℕ) :=
  if name = "4-4-2" then some (4, 4, 2)
  else if name = "4-3-3" then some (4, 3, 3)
  else if name = "3-5-2" then some (3, 5, 2)
  else if name = "5-3-2" then some (5, 3, 2)
  else if name = "4-2-3-1" then some (4, 5, 1)
  else if name = "3-4-3" then some (3, 4, 3)
  else none

/-- `sum(position_counts.get(pos, 0) for pos in group)`: the number of
players whose position is in `group`. -/
def countPositions (pps : List PlayerPosition) (group : List String) : ℕ :=
  (pps.filter (fun pp => pp.position ∈ group)).length

/-- Embedding of `FormationEngine._validate_formation_structure`
(`core/formation_engine.py` lines 51-81): appends warnings only. -/
def validate_formation_structure (formationName : String)
    (pps : List PlayerPosition) (r : ValidationResult) : ValidationResult :=
  match formationStructures formationName with
  | none => r
  | some (d, m, f) =>
    let defenders := countPositions pps ["CB", "LB", "RB"]
    let midfielders := countPositions pps ["CDM", "CM", "CAM", "LM", "RM"]
    let forwards := countPositions pps ["LW", "RW", "ST"]
    let r1 := if defenders ≠ d then
        r.addWarning ("Expected " ++ toString d ++ " defenders, found " ++ toString defenders)
      else r
    let r2 := if midfielders ≠ m then
        r1.addWarning ("Expected " ++ toString m ++ " midfielders, found " ++ toString midfielders)
      else r1
    if forwards ≠ f then
      r2.addWarning ("Expected " ++ toString f ++ " forwards, found " ++ toString forwards)
    else r2

/-- Embedding of `FormationEngine._validate_player_positions`
(`core/formation_engine.py` lines 83-90): appends warnings only. -/
def validate_player_positions (pps : List PlayerPosition) (r : ValidationResult) :
    ValidationResult :=
  pps.foldl (fun acc pp =>
    if ¬ (0 ≤ pp.x_coordinate ∧ pp.x_coordinate ≤ 100) ∨
       ¬ (0 ≤ pp.y_coordinate ∧ pp.y_coordinate ≤ 100) then
      acc.addWarning ("Position coordinates for " ++ pp.position ++ " are outside valid range")
    else acc) r

/-- Embedding of `FormationEngine.validate_formation`
(`core/formation_engine.py` lines 18-49). -/
def validate_formation (formationName : String) (pps : List PlayerPosition) :
    ValidationResult :=
  let r0 : ValidationResult := { isValid := true, errors := [], warnings := [] }
  let r1 := if formationName ∉ validFormationNames then
      r0.addError ("Formation " ++ formationName ++ " is not recognised")
    else r0
  let r2 := if pps.length ≠ maxPlayers then
      r1.addError ("Formation must contain exactly " ++ toString maxPlayers ++ " players")
    else r1
  let r3 := invalidPositionErrors pps r2
  let r4 := if (pps.filter (fun pp => pp.position = "GK")).length ≠ 1 then
      r3.addError ("Formation must contain exactly one goalkeeper")
    else r3
  let r5 := validate_formation_structure formationName pps r4
  validate_player_positions pps r5

/-! ## `core/signals.py`: cache invalidation on `Match` writes

Django's cache is embedded as a partial map from string keys to
values; `cache.delete(key)` removes the binding.  Saving or deleting a
`Match` fires the registered signal handlers in registration order:

* `post_save`: `match_post_save` (lines 63-87), then
  `update_match_preparation_alerts` (lines 325-333), then
  `analyze_result_patterns` (lines 403-450);
* `post_delete`: `match_post_delete` (lines 238-244).

Every `Analytics.objects.create(...)` performed inside a handler fires
`analytics_post_save` (lines 270-279), which deletes the two
analytics cache keys.  No handler ever calls `cache.set`.  Handler
branches that depend on database contents not carried by the match row
(the alert conditions) are abstracted as Boolean parameters of the
operation; they only add further `cache.delete` calls. -/

/-- The cache: a finite partial map from keys to string values. -/
def Cache : Type := String → Option String

/-- `cache.delete(key)`. -/
def cacheDelete (key : String) (c : Cache) : Cache :=
  fun k => if k = key then none else c k

/-- Cache effect of `analytics_post_save` (fires on every
`Analytics.objects.create`). -/
def analyticsPostSaveCache (c : Cache) : Cache :=
  cacheDelete "high_confidence_analytics" (cacheDelete "recent_analytics" c)

/-- Cache effect of `match_post_save`: an `Analytics` row is created
when the save is an update of a completed match; afterwards the three
match cache keys are unconditionally deleted (lines 85-87). -/
def matchPostSaveCache (created : Bool) (status : String) (c : Cache) : Cache :=
  let c1 := if created then c
    else if status = "COMPLETED" ∨ status = "FULL_TIME" then analyticsPostSaveCache c
    else c
  cacheDelete "season_statistics"
    (cacheDelete "upcoming_fixtures" (cacheDelete "recent_matches" c1))

/-- Cache effect of `update_match_preparation_alerts`: for a scheduled
match within the alert window (`alertFires`) an `Analytics` row is
created. -/
def matchPrepAlertCache (status : String) (alertFires : Bool) (c : Cache) : Cache :=
  if status = "SCHEDULED" ∧ alertFires then analyticsPostSaveCache c else c

/-- Cache effect of `analyze_result_patterns`: for a completed match,
depending on the recent-form queries (`patternFires`), an `Analytics`
row may be created. -/
def resultPatternCache (status : String) (patternFires : Bool) (c : Cache) : Cache :=
  if (status = "COMPLETED" ∨ status = "FULL_TIME") ∧ patternFires then
    analyticsPostSaveCache c
  else c

/-- Cache effect of `match_post_delete` (lines 242-244). -/
def matchPostDeleteCache (c : Cache) : Cache :=
  cacheDelete "season_statistics"
    (cacheDelete "upcoming_fixtures" (cacheDelete "recent_matches" c))

/-- A write operation on `Match`: a save (with the data-dependent
branch conditions of the handlers) or a delete. -/
inductive MatchWriteOp where
  | save (created : Bool) (status : String) (alertFires patternFires : Bool)
  | del
deriving Repr, DecidableEq

/-- Total cache effect of one `Match` write: all `post_save` handlers
in registration order, or the `post_delete` handler. -/
def matchWriteStep (c : Cache) (op : MatchWriteOp) : Cache :=
  match op with
  | .save created status alertFires patternFires =>
      resultPatternCache status patternFires
        (matchPrepAlertCache status alertFires
          (matchPostSaveCache created status c))
  | .del => matchPostDeleteCache c

/-- The three cache keys named by the claim. -/
def matchCacheKeys : List String :=
  ["recent_matches", "upcoming_fixtures", "season_statistics"]

/-! ## `core/performance_calculator.py`: comprehensive rating

A `PlayerStats` row (`core/models.py` lines 194-228) with its related
`Match` row; all numeric columns are carried, with the model's
defaults.  The Python attribute `match` is the field `matchRef`
(`match` is a Lean keyword).

Django ORM conventions embedded here:
* `aggregate(.. = Sum(f) ..)` resolves the keyword `f` against the
  model's columns and raises `FieldError` when it cannot
  (`sumAgg` / `statField`); likewise `Count(f)` (`countAgg`).
* On a nonempty queryset `Sum` returns the numeric sum, and the
  source's `x or 0` guards (which handle the `None` of an empty
  queryset) are the identity; the embedded aggregation functions are
  only ever applied to the nonempty `recent_stats` queryset.
* `variance ** 0.5` (a float square root) is abstracted as an explicit
  function parameter `sqrtFn`; no claim depends on its value.
* The `calculated_at` timestamp of the result payload is omitted
  (I/O). -/

structure PlayerStatsRec where
  player : ℕ
  matchRef : MatchRec := {}
  minutes_played : ℕ := 0
  goals : ℕ := 0
  assists : ℕ := 0
  passes_completed : ℕ := 0
  passes_attempted : ℕ := 0
  pass_accuracy : ℚ := 0
  distance_covered : ℚ := 0
  sprints : ℕ := 0
  top_speed : ℚ := 0
  tackles_won : ℕ := 0
  tackles_attempted : ℕ := 0
  interceptions : ℕ := 0
  clearances : ℕ := 0
  shots_on_target : ℕ := 0
  shots_off_target : ℕ := 0
  shots_blocked : ℕ := 0
  crosses_completed : ℕ := 0
  crosses_attempted : ℕ := 0
  fouls_committed : ℕ := 0
  fouls_won : ℕ := 0
  yellow_cards : ℕ := 0
  red_cards : ℕ := 0
  offsides : ℕ := 0
  rating : ℚ := 0
deriving Repr, DecidableEq

/-- Errors surfaced by the embedded calculator: the application's
`InsufficientDataError` and Django's `FieldError` (raised when an ORM
keyword does not resolve to a model column). -/
inductive CalcError where
  | insufficientDataError (msg : String)
  | fieldError (keyword : String)
deriving Repr, DecidableEq

/-- Column resolution for `Sum(field)` on `PlayerStats`: the numeric
columns of the model, as they read from a row.  Names that are not
columns — in particular `tackles` and `blocks` — resolve to `none`. -/
def statField (field : String) : Option (PlayerStatsRec → ℚ) :=
  if field = "minutes_played" then some (fun s => (s.minutes_played : ℚ))
  else if field = "goals" then some (fun s => (s.goals : ℚ))
  else if field = "assists" then some (fun s => (s.assists : ℚ))
  else if field = "passes_completed" then some (fun s => (s.passes_completed : ℚ))
  else if field = "passes_attempted" then some (fun s => (s.passes_attempted : ℚ))
  else if field = "pass_accuracy" then some (fun s => s.pass_accuracy)
  else if field = "distance_covered" then some (fun s => s.distance_covered)
  else if field = "sprints" then some (fun s => (s.sprints : ℚ))
  else if field = "top_speed" then some (fun s => s.top_speed)
  else if field = "tackles_won" then some (fun s => (s.tackles_won : ℚ))
  else if field = "tackles_attempted" then some (fun s => (s.tackles_attempted : ℚ))
  else if field = "interceptions" then some (fun s => (s.interceptions : ℚ))
  else if field = "clearances" then some (fun s => (s.clearances : ℚ))
  else if field = "shots_on_target" then some (fun s => (s.shots_on_target : ℚ))
  else if field = "shots_off_target" then some (fun s => (s.shots_off_target : ℚ))
  else if field = "shots_blocked" then some (fun s => (s.shots_blocked : ℚ))
  else if field = "crosses_completed" then some (fun s => (s.crosses_completed : ℚ))
  else if field = "crosses_attempted" then some (fun s => (s.crosses_attempted : ℚ))
  else if field = "fouls_committed" then some (fun s => (s.fouls_committed : ℚ))
  else if field = "fouls_won" then some (fun s => (s.fouls_won : ℚ))
  else if field = "yellow_cards" then some (fun s => (s.yellow_cards : ℚ))
  else if field = "red_cards" then some (fun s => (s.red_cards : ℚ))
  else if field = "offsides" then some (fun s => (s.offsides : ℚ))
  else if field = "rating" then some (fun s => s.rating)
  else none

/-- All column names of `PlayerStats` (for `Count`). -/
def playerStatsColumns : List String :=
  ["id", "player", "match", "minutes_played", "goals", "assists",
   "passes_completed", "passes_attempted", "pass_accuracy",
   "distance_covered", "sprints", "top_speed", "tackles_won",
   "tackles_attempted", "interceptions", "clearances", "shots_on_target",
   "shots_off_target", "shots_blocked", "crosses_completed",
   "crosses_attempted", "fouls_committed", "fouls_won", "yellow_cards",
   "red_cards", "offsides", "rating"]

/-- `queryset.aggregate(.. = Sum(field) ..)` on `PlayerStats` rows. -/
def sumAgg (field : String) (rows : List PlayerStatsRec) : Except CalcError ℚ :=
  match statField field with
  | some g => .ok ((rows.map g).sum)
  | none => .error (.fieldError field)

/-- `queryset.aggregate(.. = Count(field) ..)` on `PlayerStats` rows. -/
def countAgg (field : String) (rows : List PlayerStatsRec) : Except CalcError ℕ :=
  if field ∈ playerStatsColumns then .ok rows.length
  else .error (.fieldError field)

/-- Embedding of `PerformanceCalculator._calculate_shot_accuracy`
(lines 389-393), taking the two summed totals. -/
def shotAccuracyOfTotals (on_target off_target : ℚ) : ℚ :=
  if on_target + off_target = 0 then 0
  else (on_target / (on_target + off_target)) * 100

/-- Embedding of `PerformanceCalculator._calculate_attacking_score`
(lines 118-140). -/
def calculate_attacking_score (rows : List PlayerStatsRec) : Except CalcError ℚ := do
  let total_goals ← sumAgg "goals" rows
  let total_assists ← sumAgg "assists" rows
  let total_shots_on_target ← sumAgg "shots_on_target" rows
  let total_shots_off_target ← sumAgg "shots_off_target" rows
  let match_count ← countAgg "id" rows
  if match_count = 0 then return 0
  let goals_per_match := total_goals / (match_count : ℚ)
  let assists_per_match := total_assists / (match_count : ℚ)
  let shot_accuracy := shotAccuracyOfTotals total_shots_on_target total_shots_off_target
  let attacking_score := goals_per_match * 25 + assists_per_match * 15 + shot_accuracy * 0.3
  return min 100 (pyRound2 attacking_score)

/-- Embedding of `PerformanceCalculator._calculate_passing_score`
(lines 142-157). -/
def calculate_passing_score (rows : List PlayerStatsRec) : Except CalcError ℚ := do
  let total_completed ← sumAgg "passes_completed" rows
  let total_attempted ← sumAgg "passes_attempted" rows
  let match_count ← countAgg "id" rows
  if total_attempted = 0 then return 50
  let pass_accuracy := (total_completed / total_attempted) * 100
  let volume_factor := min 1.2 ((total_attempted / (match_count : ℚ)) / 50)
  let passing_score := pass_accuracy * volume_factor
  return min 100 (pyRound2 passing_score)

/-- Embedding of `PerformanceCalculator._calculate_defensive_score`
(lines 159-180).  The aggregate names `tackles` and `blocks` are not
columns of `PlayerStats` (the model has `tackles_won`,
`tackles_attempted` and `shots_blocked`), so the first aggregation
raises `FieldError`. -/
def calculate_defensive_score (rows : List PlayerStatsRec) : Except CalcError ℚ := do
  let total_tackles ← sumAgg "tackles" rows
  let total_interceptions ← sumAgg "interceptions" rows
  let total_clearances ← sumAgg "clearances" rows
  let total_blocks ← sumAgg "blocks" rows
  let match_count ← countAgg "id" rows
  if match_count = 0 then return 0
  let defensive_actions_per_match :=
    (total_tackles + total_interceptions + total_clearances + total_blocks) / (match_count : ℚ)
  let defensive_score := min 100 (defensive_actions_per_match * 5)
  return pyRound2 defensive_score

/-- Embedding of `PerformanceCalculator._calculate_physical_score`
(lines 182-198). -/
def calculate_physical_score (rows : List PlayerStatsRec) : Except CalcError ℚ := do
  let total_distance ← sumAgg "distance_covered" rows
  let total_sprints ← sumAgg "sprints" rows
  let total_minutes ← sumAgg "minutes_played" rows
  let match_count ← countAgg "id" rows
  if total_minutes = 0 then return 0
  let distance_per_minute := total_distance / total_minutes
  let sprint_intensity := total_sprints / (match_count : ℚ)
  let physical_score := distance_per_minute * 0.8 + sprint_intensity * 2
  return min 100 (pyRound2 physical_score)

/-- Embedding of `PerformanceCalculator._calculate_variance`
(lines 395-401): the sample standard deviation, with the float square
root `** 0.5` abstracted as `sqrtFn`. -/
def calculate_variance (sqrtFn : ℚ → ℚ) (values : List ℚ) : ℚ :=
  if values.length ≤ 1 then 0
  else
    let mean := values.sum / (values.length : ℚ)
    let variance := (values.map (fun x => (x - mean) ^ 2)).sum / ((values.length : ℚ) - 1)
    sqrtFn variance

/-- Embedding of `PerformanceCalculator._calculate_consistency_factor`
(lines 200-209). -/
def calculate_consistency_factor (sqrtFn : ℚ → ℚ) (rows : List PlayerStatsRec) : ℚ :=
  let ratings := rows.map (fun s => s.rating)
  if ratings.length < 3 then 50
  else
    let variance := calculate_variance sqrtFn ratings
    let consistency_score := max 0 (100 - variance * 20)
    pyRound2 consistency_score

/-- Per-row impact of the loop body of
`PerformanceCalculator._calculate_match_impact_factor`
(lines 218-236). -/
def matchImpact (s : PlayerStatsRec) : ℚ :=
  let resultImpact : ℚ :=
    if s.matchRef.result = "WIN" then 5
    else if s.matchRef.result = "DRAW" then 2
    else 0
  let goalImpact : ℚ := if s.goals > 0 then (s.goals : ℚ) * 10 else 0
  let assistImpact : ℚ := if s.assists > 0 then (s.assists : ℚ) * 7 else 0
  let ratingImpact : ℚ := if s.rating ≥ 8 then 8 else if s.rating ≥ 7 then 4 else 0
  resultImpact + goalImpact + assistImpact + ratingImpact

/-- Embedding of `PerformanceCalculator._calculate_match_impact_factor`
(lines 211-241). -/
def calculate_match_impact_factor (rows : List PlayerStatsRec) : ℚ :=
  if rows.length = 0 then 0
  else
    let impact_score := (rows.map matchImpact).sum
    let average_impact := impact_score / (rows.length : ℚ)
    let normalized_impact := min 100 (average_impact * 2)
    pyRound2 normalized_impact

/-- The six component scores, in the source's dict order. -/
structure ComponentScores where
  attacking_contribution : ℚ
  passing_performance : ℚ
  defensive_contribution : ℚ
  physical_performance : ℚ
  consistency_factor : ℚ
  match_impact_factor : ℚ
deriving Repr, DecidableEq

/-- The `position_weights` table of
`PerformanceCalculator._apply_position_weights` (lines 243-327);
`position_weights.get(position, position_weights['CM'])` falls back to
the `CM` row. -/
def positionWeights (position : String) : ComponentScores :=
  if position = "GK" then ⟨0.1, 0.3, 0.4, 0.2, 0.3, 0.3⟩
  else if position = "CB" then ⟨0.2, 0.3, 0.4, 0.25, 0.3, 0.25⟩
  else if position = "LB" then ⟨0.3, 0.3, 0.3, 0.3, 0.25, 0.25⟩
  else if position = "RB" then ⟨0.3, 0.3, 0.3, 0.3, 0.25, 0.25⟩
  else if position = "CDM" then ⟨0.25, 0.4, 0.35, 0.3, 0.3, 0.25⟩
  else if position = "CM" then ⟨0.35, 0.4, 0.25, 0.3, 0.25, 0.3⟩
  else if position = "CAM" then ⟨0.45, 0.35, 0.15, 0.25, 0.25, 0.35⟩
  else if position = "LW" then ⟨0.5, 0.25, 0.15, 0.3, 0.2, 0.4⟩
  else if position = "RW" then ⟨0.5, 0.25, 0.15, 0.3, 0.2, 0.4⟩
  else if position = "ST" then ⟨0.6, 0.2, 0.1, 0.25, 0.2, 0.45⟩
  else ⟨0.35, 0.4, 0.25, 0.3, 0.25, 0.3⟩

/-- Embedding of `PerformanceCalculator._apply_position_weights`
(lines 329-334): the weighted sum of the six components. -/
def apply_position_weights (position : String) (comp : ComponentScores) : ℚ :=
  let w := positionWeights position
  comp.attacking_contribution * w.attacking_contribution +
  comp.passing_performance * w.passing_performance +
  comp.defensive_contribution * w.defensive_contribution +
  comp.physical_performance * w.physical_performance +
  comp.consistency_factor * w.consistency_factor +
  comp.match_impact_factor * w.match_impact_factor

/-- `Decimal(...).quantize(Decimal('0.1'), rounding=ROUND_HALF_UP)` on
a non-negative value: one decimal place, ties away from zero. -/
def roundHalfUp1 (q : ℚ) : ℚ := (⌊q * 10 + 1/2⌋ : ℚ) / 10

/-- Embedding of `PerformanceCalculator._normalize_rating`
(lines 336-338). -/
def normalize_rating (weighted_score : ℚ) : ℚ :=
  roundHalfUp1 (min 10 (max 1 (weighted_score / 10)))

/-- Embedding of `PerformanceCalculator._generate_rating_explanation`
(lines 340-365). -/
def generate_rating_explanation (comp : ComponentScores) (final_rating : ℚ) :
    List String :=
  let e1 : List String :=
    if comp.attacking_contribution > 80 then ["Excellent attacking output"]
    else if comp.attacking_contribution > 60 then ["Good attacking contribution"]
    else if comp.attacking_contribution < 30 then ["Limited attacking threat"]
    else []
  let e2 : List String :=
    if comp.consistency_factor > 80 then ["Highly consistent performances"]
    else if comp.consistency_factor < 50 then ["Inconsistent performance levels"]
    else []
  let e3 : List String :=
    if comp.match_impact_factor > 80 then ["Significant match-winning contributions"]
    else []
  let e4 : List String :=
    if final_rating ≥ 8 then ["Outstanding overall performance level"]
    else if final_rating ≥ 7 then ["Strong overall performance level"]
    else if final_rating < 6 then ["Performance below expectations"]
    else []
  e1 ++ e2 ++ e3 ++ e4

/-- The result payload of `calculate_comprehensive_rating`
(without the `calculated_at` timestamp). -/
structure RatingResult where
  player_id : ℕ
  player_name : String
  position : String
  calculation_period_days : ℤ
  matches_analyzed : ℕ
  overall_rating : ℚ
  component_scores : ComponentScores
  rating_explanation : List String
  performance_grade : String
deriving Repr, DecidableEq

/-- The `recent_stats` queryset of `calculate_comprehensive_rating`
(lines 26-32): this player's stats on completed matches scheduled at
or after `now - days`. -/
def recentStatsFilter (db : List PlayerStatsRec) (playerId : ℕ) (now days : ℤ) :
    List PlayerStatsRec :=
  db.filter (fun s => decide (s.player = playerId ∧
    now - days ≤ s.matchRef.scheduled_datetime ∧
    (s.matchRef.status = "COMPLETED" ∨ s.matchRef.status = "FULL_TIME")))

/-- Body of `PerformanceCalculator.calculate_comprehensive_rating`
(lines 34-60), applied to the already-constructed `recent_stats`
queryset.  The second component of the result is the stored state (the
`PlayerStats` table) after the call: the method only reads, and every
branch returns it unchanged.  The component scores are computed in the
source's dict order (attacking, passing, defensive, physical,
consistency, impact); Python evaluates them sequentially, so an
exception in an earlier component prevents evaluation of the later
ones. -/
def comprehensiveRatingBody (sqrtFn : ℚ → ℚ) (db : List PlayerStatsRec)
    (player : Player) (days : ℤ)
    (recent_stats : List PlayerStatsRec) :
    Except CalcError RatingResult × List PlayerStatsRec :=
  if recent_stats.isEmpty then
    (.error (.insufficientDataError
      ("No recent performance data available for " ++ player.full_name)), db)
  else
    match calculate_attacking_score recent_stats with
    | .error e => (.error e, db)
    | .ok att =>
      match calculate_passing_score recent_stats with
      | .error e => (.error e, db)
      | .ok pas =>
        match calculate_defensive_score recent_stats with
        | .error e => (.error e, db)
        | .ok dfn =>
          match calculate_physical_score recent_stats with
          | .error e => (.error e, db)
          | .ok phy =>
            let comp : ComponentScores :=
              ⟨att, pas, dfn, phy,
               calculate_consistency_factor sqrtFn recent_stats,
               calculate_match_impact_factor recent_stats⟩
            let weighted_score := apply_position_weights player.position comp
            let final_rating := normalize_rating weighted_score
            (.ok { player_id := player.id,
                   player_name := player.full_name,
                   position := player.position,
                   calculation_period_days := days,
                   matches_analyzed := recent_stats.length,
                   overall_rating := final_rating,
                   component_scores := comp,
                   rating_explanation := generate_rating_explanation comp final_rating,
                   performance_grade := assign_performance_grade final_rating }, db)

/-- Embedding of `PerformanceCalculator.calculate_comprehensive_rating`
(lines 25-60): build the `recent_stats` queryset, then run the body. -/
def calculate_comprehensive_rating (sqrtFn : ℚ → ℚ) (db : List PlayerStatsRec)
    (player : Player) (now : ℤ) (days : ℤ := 30) :
    Except CalcError RatingResult × List PlayerStatsRec :=
  comprehensiveRatingBody sqrtFn db player days
    (recentStatsFilter db player.id now days)

/-! ## `core/comparison_engine.py`: formation comparison data

`_extract_formation_comparison_data(formation, matches)` filters its
`Match` queryset with the keywords `result` and `opponent_score`.
Django resolves a filter keyword against the model's columns and
raises `FieldError` for anything else; `Match.result` is a Python
`@property` (`core/models.py` lines 131-139), not a column.
`MatchRec` carries the columns the embedded analytics read
(`status`, the two scores, `scheduled_datetime`); no embedded call
filters on any of the remaining columns, and `result` resolves to
`none` exactly as in Django. -/

/-- The column names of `Match` (`core/models.py` lines 102-116); the
computed property `result` is not among them. -/
def matchColumns : List String :=
  ["id", "opponent", "match_type", "is_home", "scheduled_datetime",
   "actual_kickoff", "status", "chelsea_score", "opponent_score", "venue",
   "attendance", "weather_conditions", "referee", "created_at", "updated_at"]

/-- A filter value: string or integer. -/
inductive FieldVal where
  | s (v : String)
  | n (v : ℕ)
deriving Repr, DecidableEq

/-- Keyword resolution for filters on `Match` rows. -/
def matchFieldGet (field : String) : Option (MatchRec → FieldVal) :=
  if field = "status" then some (fun m => .s m.status)
  else if field = "chelsea_score" then some (fun m => .n m.chelsea_score)
  else if field = "opponent_score" then some (fun m => .n m.opponent_score)
  else none

/-- `queryset.filter(field=val)` on `Match` rows: `FieldError` for an
unresolvable keyword. -/
def matchFilterEq (field : String) (val : FieldVal) (ms : List MatchRec) :
    Except CalcError (List MatchRec) :=
  match matchFieldGet field with
  | some g => .ok (ms.filter (fun m => g m == val))
  | none => .error (.fieldError field)

/-- A `Formation` row, restricted to the columns read here
(`core/models.py` lines 141-160). -/
structure FormationRec where
  id : ℕ
  name : String
deriving Repr, DecidableEq

/-- The dict returned by `_extract_formation_comparison_data`
(`core/comparison_engine.py` lines 259-274). -/
structure FormationComparisonData where
  formation_name : String
  formation_id : String
  matches_played : ℕ
  wins : ℕ
  draws : ℕ
  losses : ℕ
  win_rate : ℚ
  goals_scored : ℕ
  goals_conceded : ℕ
  goals_per_match : ℚ
  goals_conceded_per_match : ℚ
  goal_difference : ℤ
  clean_sheets : ℕ
  points_per_match : ℚ
deriving Repr, DecidableEq

/-- Embedding of `ComparisonEngine._extract_formation_comparison_data`
(`core/comparison_engine.py` lines 250-274). -/
def extract_formation_comparison_data (formation : FormationRec)
    (ms : List MatchRec) : Except CalcError FormationComparisonData := do
  let total_matches := ms.length
  let winRows ← matchFilterEq "result" (.s "WIN") ms
  let wins := winRows.length
  let drawRows ← matchFilterEq "result" (.s "DRAW") ms
  let draws := drawRows.length
  let lossRows ← matchFilterEq "result" (.s "LOSS") ms
  let losses := lossRows.length
  let goals_scored := (ms.map (fun m => m.chelsea_score)).sum
  let goals_conceded := (ms.map (fun m => m.opponent_score)).sum
  let cleanRows ← matchFilterEq "opponent_score" (.n 0) ms
  return { formation_name := formation.name,
           formation_id := toString formation.id,
           matches_played := total_matches,
           wins := wins, draws := draws, losses := losses,
           win_rate := if total_matches > 0 then
               pyRound2 (((wins : ℚ) / (total_matches : ℚ)) * 100)
             else 0,
           goals_scored := goals_scored,
           goals_conceded := goals_conceded,
           goals_per_match := if total_matches > 0 then
               pyRound2 ((goals_scored : ℚ) / (total_matches : ℚ))
             else 0,
           goals_conceded_per_match := if total_matches > 0 then
               pyRound2 ((goals_conceded : ℚ) / (total_matches : ℚ))
             else 0,
           goal_difference := (goals_scored : ℤ) - (goals_conceded : ℤ),
           clean_sheets := cleanRows.length,
           points_per_match := if total_matches > 0 then
               pyRound2 (((wins : ℚ) * 3 + (draws : ℚ)) / (total_matches : ℚ))
             else 0 }

end ChelseaFC

namespace ChelseaFC

/-! ## Claim theorems: arithmetic helpers -/

/-- C1: `calculate_win_rate(wins, total_matches)` returns `0` when
`total_matches = 0`, otherwise `(wins / total_matches) * 100` rounded
to two decimal places; and whenever `wins ≤ total_matches` the result
lies between `0` and `100`. -/
theorem C1_calculate_win_rate_spec (wins total_matches : ℕ) :
    (total_matches = 0 → calculate_win_rate wins total_matches = 0) ∧
    (total_matches ≠ 0 →
      calculate_win_rate wins total_matches =
        pyRound2 (((wins : ℚ) / (total_matches : ℚ)) * 100)) ∧
    (wins ≤ total_matches →
      0 ≤ calculate_win_rate wins total_matches ∧
      calculate_win_rate wins total_matches ≤ 100) := by
  refine ⟨fun h => by simp [calculate_win_rate, h], fun h => by simp [calculate_win_rate, h], fun hle => ?_⟩
  unfold calculate_win_rate
  split
  · norm_num
  · rename_i h
    have htpos : (0 : ℚ) < (total_matches : ℚ) := by
      exact_mod_cast Nat.pos_of_ne_zero h
    have hratio0 : (0 : ℚ) ≤ ((wins : ℚ) / (total_matches : ℚ)) * 100 := by positivity
    have hratio1 : ((wins : ℚ) / (total_matches : ℚ)) * 100 ≤ 100 := by
      have hdiv : (wins : ℚ) / (total_matches : ℚ) ≤ 1 := by
        rw [div_le_one htpos]
        exact_mod_cast hle
      linarith
    exact ⟨pyRound2_nonneg hratio0, pyRound2_le_100 hratio1⟩

/-- C1 witness: concrete evaluation at `wins = 2`, `total_matches = 3`. -/
theorem C1_calculate_win_rate_spec_witness :
    calculate_win_rate 2 0 = 0 ∧
    calculate_win_rate 2 3 = pyRound2 (((2 : ℚ) / 3) * 100) ∧
    (0 ≤ calculate_win_rate 2 3 ∧ calculate_win_rate 2 3 ≤ 100) := by
  refine ⟨(C1_calculate_win_rate_spec 2 0).1 rfl,
          (C1_calculate_win_rate_spec 2 3).2.1 (by decide),
          (C1_calculate_win_rate_spec 2 3).2.2 (by decide)⟩

/-- C2: `calculate_pass_accuracy(completed, attempted)` returns `0` when
`attempted = 0`, otherwise `(completed / attempted) * 100` rounded to
two decimal places (i.e. a multiple of `1/100` within `1/200` of the
exact percentage). -/
theorem C2_calculate_pass_accuracy_spec (passes_completed passes_attempted : ℕ) :
    (passes_attempted = 0 → calculate_pass_accuracy passes_completed passes_attempted = 0) ∧
    (passes_attempted ≠ 0 →
      calculate_pass_accuracy passes_completed passes_attempted =
        pyRound2 (((passes_completed : ℚ) / (passes_attempted : ℚ)) * 100) ∧
      (∃ z : ℤ, calculate_pass_accuracy passes_completed passes_attempted * 100 = (z : ℚ)) ∧
      |calculate_pass_accuracy passes_completed passes_attempted -
        ((passes_completed : ℚ) / (passes_attempted : ℚ)) * 100| ≤ 1/200) := by
  constructor
  · intro h; simp [calculate_pass_accuracy, h]
  · intro h
    have heq : calculate_pass_accuracy passes_completed passes_attempted =
        pyRound2 (((passes_completed : ℚ) / (passes_attempted : ℚ)) * 100) := by
      simp [calculate_pass_accuracy, h]
    refine ⟨heq, ?_, ?_⟩
    · rw [heq]; exact pyRound2_mul_100_isInt _
    · rw [heq]; exact pyRound2_abs_le _

/-- C2 witness: concrete evaluation at `completed = 7`, `attempted = 8`. -/
theorem C2_calculate_pass_accuracy_spec_witness :
    calculate_pass_accuracy 7 0 = 0 ∧
    calculate_pass_accuracy 7 8 = pyRound2 (((7 : ℚ) / 8) * 100) := by
  exact ⟨(C2_calculate_pass_accuracy_spec 7 0).1 rfl,
         ((C2_calculate_pass_accuracy_spec 7 8).2 (by decide)).1⟩

/-- C10: `utils.calculate_performance_grade` and
`PerformanceCalculator._assign_performance_grade` are equal as
functions: the two threshold tables agree at every rating. -/
theorem C10_performance_grade_tables_equal (rating : ℚ) :
    calculate_performance_grade rating = assign_performance_grade rating := rfl

theorem fdiv_natCast_365 (n : ℕ) :
    Int.fdiv (n : ℤ) 365 = ((n / 365 : ℕ) : ℤ) := by
  cases n with
  | zero => rfl
  | succ m => rfl

/-- C4: for dates of birth not after today, `Player.age` and
`utils.calculate_age` agree, and both equal the number of days between
the dates integer-divided by 365, a non-negative integer. -/
theorem C4_age_refines_calculate_age (p : Player) (today : ℤ)
    (h : p.date_of_birth ≤ today) :
    p.age today = calculate_age today p.date_of_birth ∧
    calculate_age today p.date_of_birth = ((today - p.date_of_birth).toNat / 365 : ℕ) ∧
    0 ≤ calculate_age today p.date_of_birth := by
  have hnn : 0 ≤ today - p.date_of_birth := by omega
  obtain ⟨n, hn⟩ : ∃ n : ℕ, today - p.date_of_birth = (n : ℤ) :=
    ⟨(today - p.date_of_birth).toNat, (Int.toNat_of_nonneg hnn).symm⟩
  have hred : calculate_age today p.date_of_birth = ((n / 365 : ℕ) : ℤ) := by
    unfold calculate_age
    rw [hn]
    exact fdiv_natCast_365 n
  refine ⟨rfl, ?_, ?_⟩
  · rw [hred, hn]
    norm_num
  · rw [hred]
    exact_mod_cast Nat.zero_le _

/-- C4 witness: a player born 12000 days before the reference day. -/
theorem C4_age_refines_calculate_age_witness :
    ({ id := 1, date_of_birth := 8000 } : Player).age 20000 =
      calculate_age 20000 8000 ∧
    calculate_age 20000 8000 = ((12000 : ℤ).toNat / 365 : ℕ) ∧
    0 ≤ calculate_age 20000 8000 := by
  have h := C4_age_refines_calculate_age { id := 1, date_of_birth := 8000 } 20000 (by decide)
  simpa using h

/-- C3: `Match.result` is `TBD` unless the status is `FULL_TIME` or
`COMPLETED`; for those statuses it is `WIN`/`LOSS`/`DRAW` exactly as
the scores compare, and it takes no other value. -/
theorem C3_match_result_spec (m : MatchRec) :
    (¬ (m.status = "FULL_TIME" ∨ m.status = "COMPLETED") → m.result = "TBD") ∧
    ((m.status = "FULL_TIME" ∨ m.status = "COMPLETED") →
      (m.result = "WIN" ↔ m.chelsea_score > m.opponent_score) ∧
      (m.result = "LOSS" ↔ m.chelsea_score < m.opponent_score) ∧
      (m.result = "DRAW" ↔ m.chelsea_score = m.opponent_score)) ∧
    (m.result = "TBD" ∨ m.result = "WIN" ∨ m.result = "LOSS" ∨ m.result = "DRAW") := by
  unfold MatchRec.result
  refine ⟨fun h => by simp [h], fun h => ?_, ?_⟩
  · rw [if_neg (not_not_intro h)]
    rcases Nat.lt_trichotomy m.chelsea_score m.opponent_score with hlt | heq | hgt
    · rw [if_neg (by omega), if_pos hlt]
      refine ⟨by simp; omega, by simp [hlt], by simp; omega⟩
    · rw [if_neg (by omega), if_neg (by omega)]
      refine ⟨by simp; omega, by simp; omega, by simp [heq]⟩
    · rw [if_pos hgt]
      refine ⟨by simp [hgt], by simp; omega, by simp; omega⟩
  · split
    · left; rfl
    · split
      · right; left; rfl
      · split
        · right; right; left; rfl
        · right; right; right; rfl

/-- C3 witness: a completed match Chelsea 2-1 is a WIN. -/
theorem C3_match_result_spec_witness :
    ({ status := "COMPLETED", chelsea_score := 2, opponent_score := 1 } : MatchRec).result
      = "WIN" := by
  have h := (C3_match_result_spec
    { status := "COMPLETED", chelsea_score := 2, opponent_score := 1 }).2.1
    (Or.inr rfl)
  exact h.1.mpr (by decide)

/-! ## Claim theorems: formation validation (C9) -/

/-- The `is_valid` flag agrees with emptiness of the `errors` list. -/
def resultConsistent (r : ValidationResult) : Prop :=
  r.isValid = true ↔ r.errors = []

theorem addError_consistent (r : ValidationResult) (msg : String) :
    resultConsistent (r.addError msg) := by
  unfold resultConsistent ValidationResult.addError
  simp

theorem addError_isValid (r : ValidationResult) (msg : String) :
    (r.addError msg).isValid = false := rfl

theorem invalidPositionErrors_consistent (pps : List PlayerPosition)
    (r : ValidationResult) (h : resultConsistent r) :
    resultConsistent (invalidPositionErrors pps r) := by
  induction pps generalizing r with
  | nil => exact h
  | cons pp rest ih =>
    unfold invalidPositionErrors at *
    simp only [List.foldl_cons]
    split
    · exact ih _ (addError_consistent r _)
    · exact ih _ h

theorem invalidPositionErrors_valid (pps : List PlayerPosition)
    (r : ValidationResult)
    (h : (invalidPositionErrors pps r).isValid = true) :
    r.isValid = true ∧ ∀ pp ∈ pps, pp.position ∈ recognisedPositions := by
  induction pps generalizing r with
  | nil => exact ⟨h, by simp⟩
  | cons pp rest ih =>
    unfold invalidPositionErrors at h ih
    simp only [List.foldl_cons] at h
    by_cases hmem : pp.position ∈ recognisedPositions
    · rw [if_neg (not_not_intro hmem)] at h
      obtain ⟨hr, hrest⟩ := ih r h
      exact ⟨hr, by simpa [hmem] using hrest⟩
    · rw [if_pos hmem] at h
      obtain ⟨hr, _⟩ := ih _ h
      rw [addError_isValid] at hr
      exact absurd hr (by simp)

theorem validate_formation_structure_preserves (formationName : String)
    (pps : List PlayerPosition) (r : ValidationResult) :
    (validate_formation_structure formationName pps r).isValid = r.isValid ∧
    (validate_formation_structure formationName pps r).errors = r.errors := by
  unfold validate_formation_structure
  cases formationStructures formationName with
  | none => exact ⟨rfl, rfl⟩
  | some t =>
    obtain ⟨d, m, f⟩ := t
    simp only
    split <;> split <;> split <;> simp [ValidationResult.addWarning]

theorem validate_player_positions_preserves (pps : List PlayerPosition)
    (r : ValidationResult) :
    (validate_player_positions pps r).isValid = r.isValid ∧
    (validate_player_positions pps r).errors = r.errors := by
  induction pps generalizing r with
  | nil => exact ⟨rfl, rfl⟩
  | cons pp rest ih =>
    unfold validate_player_positions at *
    simp only [List.foldl_cons]
    split
    · obtain ⟨h1, h2⟩ := ih (r.addWarning _)
      exact ⟨h1.trans rfl, h2.trans rfl⟩
    · exact ih r

/-- C9: in `FormationEngine.validate_formation` the `is_valid` flag is
true exactly when the `errors` list is empty, and a valid result
guarantees exactly 11 players, only recognised positions, and exactly
one goalkeeper. -/
theorem C9_validate_formation_spec (formationName : String)
    (pps : List PlayerPosition) :
    ((validate_formation formationName pps).isValid = true ↔
      (validate_formation formationName pps).errors = []) ∧
    ((validate_formation formationName pps).isValid = true →
      pps.length = 11 ∧
      (∀ pp ∈ pps, pp.position ∈ recognisedPositions) ∧
      (pps.filter (fun pp => pp.position = "GK")).length = 1) := by
  unfold validate_formation
  simp only
  set r0 : ValidationResult := { isValid := true, errors := [], warnings := [] } with hr0
  set r1 := if formationName ∉ validFormationNames then
      r0.addError ("Formation " ++ formationName ++ " is not recognised")
    else r0 with hr1
  set r2 := if pps.length ≠ maxPlayers then
      r1.addError ("Formation must contain exactly " ++ toString maxPlayers ++ " players")
    else r1 with hr2
  set r3 := invalidPositionErrors pps r2 with hr3
  set r4 := if (pps.filter (fun pp => pp.position = "GK")).length ≠ 1 then
      r3.addError ("Formation must contain exactly one goalkeeper")
    else r3 with hr4
  set r5 := validate_formation_structure formationName pps r4 with hr5
  have hpres5 := validate_formation_structure_preserves formationName pps r4
  have hpres6 := validate_player_positions_preserves pps r5
  have hc0 : resultConsistent r0 := by unfold resultConsistent; simp [hr0]
  have hc1 : resultConsistent r1 := by
    rw [hr1]; split
    · exact addError_consistent _ _
    · exact hc0
  have hc2 : resultConsistent r2 := by
    rw [hr2]; split
    · exact addError_consistent _ _
    · exact hc1
  have hc3 : resultConsistent r3 := invalidPositionErrors_consistent pps r2 hc2
  have hc4 : resultConsistent r4 := by
    rw [hr4]; split
    · exact addError_consistent _ _
    · exact hc3
  constructor
  · rw [hpres6.1, hpres6.2, hpres5.1, hpres5.2]
    exact hc4
  · intro hvalid
    rw [hpres6.1, hpres5.1] at hvalid
    have hgk : (pps.filter (fun pp => pp.position = "GK")).length = 1 := by
      by_contra hne
      rw [hr4, if_pos hne, addError_isValid] at hvalid
      exact absurd hvalid (by simp)
    have hv3 : r3.isValid = true := by
      rw [hr4, if_neg (not_not_intro hgk)] at hvalid
      exact hvalid
    obtain ⟨hv2, hrecog⟩ := invalidPositionErrors_valid pps r2 hv3
    have hlen : pps.length = 11 := by
      by_contra hne
      have hne' : pps.length ≠ maxPlayers := by simpa [maxPlayers] using hne
      rw [hr2, if_pos hne', addError_isValid] at hv2
      exact absurd hv2 (by simp)
    exact ⟨hlen, hrecog, hgk⟩

/-! ## Claim theorems: cache invalidation (C6) -/

theorem analyticsPostSaveCache_preserve (c : Cache) (k : String)
    (h : c k = none) : analyticsPostSaveCache c k = none := by
  simp only [analyticsPostSaveCache, cacheDelete]
  split_ifs <;> simp [h]

theorem matchPrepAlertCache_preserve (status : String) (alertFires : Bool)
    (c : Cache) (k : String) (h : c k = none) :
    matchPrepAlertCache status alertFires c k = none := by
  unfold matchPrepAlertCache
  split
  · exact analyticsPostSaveCache_preserve c k h
  · exact h

theorem resultPatternCache_preserve (status : String) (patternFires : Bool)
    (c : Cache) (k : String) (h : c k = none) :
    resultPatternCache status patternFires c k = none := by
  unfold resultPatternCache
  split
  · exact analyticsPostSaveCache_preserve c k h
  · exact h

theorem matchPostSaveCache_keys_none (created : Bool) (status : String)
    (c : Cache) (k : String) (hk : k ∈ matchCacheKeys) :
    matchPostSaveCache created status c k = none := by
  simp only [matchCacheKeys, List.mem_cons, List.mem_singleton] at hk
  rcases hk with rfl | rfl | rfl | h
  · simp [matchPostSaveCache, cacheDelete]
  · simp [matchPostSaveCache, cacheDelete]
  · simp [matchPostSaveCache, cacheDelete]
  · exact absurd h (by simp)

theorem matchWriteStep_keys_none (c : Cache) (op : MatchWriteOp)
    (k : String) (hk : k ∈ matchCacheKeys) :
    matchWriteStep c op k = none := by
  cases op with
  | save created status alertFires patternFires =>
    unfold matchWriteStep
    exact resultPatternCache_preserve _ _ _ _
      (matchPrepAlertCache_preserve _ _ _ _
        (matchPostSaveCache_keys_none created status c k hk))
  | del =>
    unfold matchWriteStep matchPostDeleteCache
    simp only [matchCacheKeys, List.mem_cons, List.mem_singleton] at hk
    rcases hk with rfl | rfl | rfl | h
    · simp [cacheDelete]
    · simp [cacheDelete]
    · simp [cacheDelete]
    · exact absurd h (by simp)

/-- C6: after any nonempty sequence of `Match` saves and deletes, the
cache entries under `recent_matches`, `upcoming_fixtures` and
`season_statistics` are absent, whatever the initial cache held. -/
theorem C6_match_cache_invalidation (c : Cache) (ops : List MatchWriteOp)
    (hne : ops ≠ []) :
    ∀ k ∈ matchCacheKeys, (ops.foldl matchWriteStep c) k = none := by
  induction ops generalizing c with
  | nil => exact absurd rfl hne
  | cons op rest ih =>
    intro k hk
    cases rest with
    | nil => simpa using matchWriteStep_keys_none c op k hk
    | cons op2 rest2 =>
      rw [List.foldl_cons]
      exact ih (matchWriteStep c op) (by simp) k hk

/-- C6 witness: one completed-match update on a fully stale cache
leaves all three keys absent. -/
theorem C6_match_cache_invalidation_witness :
    ([MatchWriteOp.save false "COMPLETED" false true] ≠ []) ∧
    (([MatchWriteOp.save false "COMPLETED" false true].foldl matchWriteStep
        (fun _ => some "stale")) "recent_matches" = none) ∧
    (([MatchWriteOp.save false "COMPLETED" false true].foldl matchWriteStep
        (fun _ => some "stale")) "upcoming_fixtures" = none) ∧
    (([MatchWriteOp.save false "COMPLETED" false true].foldl matchWriteStep
        (fun _ => some "stale")) "season_statistics" = none) := by
  refine ⟨by simp, ?_, ?_, ?_⟩
  · exact C6_match_cache_invalidation (fun _ => some "stale") _ (by simp)
      "recent_matches" (by simp [matchCacheKeys])
  · exact C6_match_cache_invalidation (fun _ => some "stale") _ (by simp)
      "upcoming_fixtures" (by simp [matchCacheKeys])
  · exact C6_match_cache_invalidation (fun _ => some "stale") _ (by simp)
      "season_statistics" (by simp [matchCacheKeys])

/-! ## Claim theorems: formation comparison (C7) -/

/-- C7: the code slip refuted in general.  For every formation and
every match queryset — even an empty one —
`_extract_formation_comparison_data` does not return a record: its
first filter keyword `result` is a Python property, not a column of
`Match`, so the call raises Django's `FieldError` at
`matches.filter(result='WIN')`. -/
theorem C7_formation_comparison_field_error (formation : FormationRec)
    (ms : List MatchRec) :
    extract_formation_comparison_data formation ms =
      .error (.fieldError "result") ∧
    matchColumns.contains "result" = false ∧
    matchFieldGet "result" = none :=
  ⟨rfl, rfl, rfl⟩

/-! ## Claim theorems: comprehensive rating (C5, C8) -/

theorem calculate_attacking_score_eq (rows : List PlayerStatsRec) :
    calculate_attacking_score rows =
      if rows.length = 0 then .ok 0
      else .ok (min 100 (pyRound2 (
        ((rows.map fun s => (s.goals : ℚ)).sum / (rows.length : ℚ)) * 25 +
        ((rows.map fun s => (s.assists : ℚ)).sum / (rows.length : ℚ)) * 15 +
        shotAccuracyOfTotals ((rows.map fun s => (s.shots_on_target : ℚ)).sum)
          ((rows.map fun s => (s.shots_off_target : ℚ)).sum) * 0.3))) := rfl

theorem calculate_attacking_score_ok (rows : List PlayerStatsRec) :
    ∃ q, calculate_attacking_score rows = .ok q := by
  rw [calculate_attacking_score_eq]
  split
  · exact ⟨_, rfl⟩
  · exact ⟨_, rfl⟩

theorem calculate_passing_score_eq (rows : List PlayerStatsRec) :
    calculate_passing_score rows =
      if (rows.map fun s => (s.passes_attempted : ℚ)).sum = 0 then .ok 50
      else .ok (min 100 (pyRound2 (
        (((rows.map fun s => (s.passes_completed : ℚ)).sum /
          (rows.map fun s => (s.passes_attempted : ℚ)).sum) * 100) *
        min 1.2 ((((rows.map fun s => (s.passes_attempted : ℚ)).sum) /
          (rows.length : ℚ)) / 50)))) := rfl

theorem calculate_passing_score_ok (rows : List PlayerStatsRec) :
    ∃ q, calculate_passing_score rows = .ok q := by
  rw [calculate_passing_score_eq]
  split
  · exact ⟨_, rfl⟩
  · exact ⟨_, rfl⟩

/-- The defensive aggregation always raises Django's `FieldError`:
`tackles` is not a column of `PlayerStats`. -/
theorem calculate_defensive_score_err (rows : List PlayerStatsRec) :
    calculate_defensive_score rows = .error (.fieldError "tackles") := rfl

theorem comprehensiveRatingBody_empty (sqrtFn : ℚ → ℚ)
    (db : List PlayerStatsRec) (player : Player) (days : ℤ)
    (rows : List PlayerStatsRec) (h : rows = []) :
    comprehensiveRatingBody sqrtFn db player days rows =
      (.error (.insufficientDataError
        ("No recent performance data available for " ++ player.full_name)), db) := by
  subst h
  rfl

theorem comprehensiveRatingBody_nonempty (sqrtFn : ℚ → ℚ)
    (db : List PlayerStatsRec) (player : Player) (days : ℤ)
    (rows : List PlayerStatsRec) (h : rows ≠ []) :
    comprehensiveRatingBody sqrtFn db player days rows =
      (.error (.fieldError "tackles"), db) := by
  unfold comprehensiveRatingBody
  rw [if_neg (by simpa [List.isEmpty_iff] using h)]
  obtain ⟨qa, ha⟩ := calculate_attacking_score_ok rows
  rw [ha]
  obtain ⟨qp, hp⟩ := calculate_passing_score_ok rows
  rw [hp, calculate_defensive_score_err rows]

/-- C5: `calculate_comprehensive_rating` raises `InsufficientDataError`
exactly when the player has no `PlayerStats` row on a completed match
within the window, and it never modifies the stored state. -/
theorem C5_rating_insufficient_iff (sqrtFn : ℚ → ℚ)
    (db : List PlayerStatsRec) (player : Player) (now days : ℤ) :
    ((∃ msg, (calculate_comprehensive_rating sqrtFn db player now days).1 =
        .error (.insufficientDataError msg)) ↔
      recentStatsFilter db player.id now days = []) ∧
    (calculate_comprehensive_rating sqrtFn db player now days).2 = db := by
  unfold calculate_comprehensive_rating
  by_cases h : recentStatsFilter db player.id now days = []
  · rw [comprehensiveRatingBody_empty sqrtFn db player days _ h]
    exact ⟨⟨fun _ => h, fun _ => ⟨_, rfl⟩⟩, rfl⟩
  · rw [comprehensiveRatingBody_nonempty sqrtFn db player days _ h]
    refine ⟨⟨?_, fun hc => absurd hc h⟩, rfl⟩
    rintro ⟨msg, hmsg⟩
    exact absurd hmsg (by simp)

/-- C5 witness: on an empty `PlayerStats` table the call reports
`InsufficientDataError` and leaves the table unchanged. -/
theorem C5_rating_insufficient_iff_witness :
    (∃ msg, (calculate_comprehensive_rating (fun q => q) []
        { id := 1, first_name := "Test", last_name := "Player" } 0 30).1 =
      .error (.insufficientDataError msg)) ∧
    (calculate_comprehensive_rating (fun q => q) []
        { id := 1, first_name := "Test", last_name := "Player" } 0 30).2 = [] := by
  have h := C5_rating_insufficient_iff (fun q => q) []
    { id := 1, first_name := "Test", last_name := "Player" } 0 30
  exact ⟨h.1.mpr rfl, h.2⟩

/-- C8: the code slip refuted concretely.  For a player with one
qualifying `PlayerStats` row, `calculate_comprehensive_rating` does not
return a rating: the defensive-score aggregation references the
non-columns `tackles` and `blocks` (the model's columns are
`tackles_won`, `tackles_attempted`, `shots_blocked`), so the call
raises Django's `FieldError` instead of completing. -/
theorem C8_defensive_aggregation_field_error :
    (calculate_comprehensive_rating (fun q => q)
        [{ player := 9,
           matchRef := { status := "COMPLETED", chelsea_score := 1,
                         opponent_score := 0, scheduled_datetime := 100 },
           goals := 1, minutes_played := 90, passes_completed := 30,
           passes_attempted := 40, tackles_won := 2, interceptions := 1,
           rating := 7.5 }]
        { id := 9, first_name := "Cole", last_name := "Palmer",
          position := "CAM", date_of_birth := 0 }
        100 30).1 = .error (.fieldError "tackles") ∧
    statField "tackles" = none ∧
    statField "blocks" = none ∧
    (statField "tackles_won").isSome = true ∧
    (statField "shots_blocked").isSome = true := by
  refine ⟨?_, rfl, rfl, rfl, rfl⟩
  have hne : recentStatsFilter
      [{ player := 9,
         matchRef := { status := "COMPLETED", chelsea_score := 1,
                       opponent_score := 0, scheduled_datetime := 100 },
         goals := 1, minutes_played := 90, passes_completed := 30,
         passes_attempted := 40, tackles_won := 2, interceptions := 1,
         rating := 7.5 }] 9 100 30 ≠ [] := by decide
  unfold calculate_comprehensive_rating
  rw [comprehensiveRatingBody_nonempty _ _ _ _ _ hne]

/-- C9 witness: a well-formed 4-4-2 with eleven players validates, and
an eight-player list does not. -/
theorem C9_validate_formation_spec_witness :
    (validate_formation "4-4-2"
      [⟨"GK", 50, 5⟩, ⟨"CB", 35, 25⟩, ⟨"CB", 65, 25⟩, ⟨"LB", 10, 30⟩,
       ⟨"RB", 90, 30⟩, ⟨"CM", 40, 55⟩, ⟨"CM", 60, 55⟩, ⟨"LM", 15, 60⟩,
       ⟨"RM", 85, 60⟩, ⟨"ST", 40, 85⟩, ⟨"ST", 60, 85⟩]).isValid = true ∧
    (validate_formation "4-4-2"
      [⟨"GK", 50, 5⟩, ⟨"CB", 35, 25⟩, ⟨"CB", 65, 25⟩, ⟨"LB", 10, 30⟩,
       ⟨"RB", 90, 30⟩, ⟨"CM", 40, 55⟩, ⟨"CM", 60, 55⟩, ⟨"LM", 15, 60⟩,
       ⟨"RM", 85, 60⟩, ⟨"ST", 40, 85⟩, ⟨"ST", 60, 85⟩]).errors = [] := by
  have h := (C9_validate_formation_spec "4-4-2"
      [⟨"GK", 50, 5⟩, ⟨"CB", 35, 25⟩, ⟨"CB", 65, 25⟩, ⟨"LB", 10, 30⟩,
       ⟨"RB", 90, 30⟩, ⟨"CM", 40, 55⟩, ⟨"CM", 60, 55⟩, ⟨"LM", 15, 60⟩,
       ⟨"RM", 85, 60⟩, ⟨"ST", 40, 85⟩, ⟨"ST", 60, 85⟩]).1
  have hv : (validate_formation "4-4-2"
      [⟨"GK", 50, 5⟩, ⟨"CB", 35, 25⟩, ⟨"CB", 65, 25⟩, ⟨"LB", 10, 30⟩,
       ⟨"RB", 90, 30⟩, ⟨"CM", 40, 55⟩, ⟨"CM", 60, 55⟩, ⟨"LM", 15, 60⟩,
       ⟨"RM", 85, 60⟩, ⟨"ST", 40, 85⟩, ⟨"ST", 60, 85⟩]).isValid = true := by decide
  exact ⟨hv, h.mp hv⟩

end ChelseaFC
